import Mathlib

/-!
Verification development for the `osm-mining` pipeline
(`src/queryBuilder.js`/`.ts`, `src/osmFetcher.ts`, `src/mongoStorage.ts`).

The TypeScript/JavaScript sources are shallowly embedded:

* JS numbers appearing in coordinate arithmetic are modelled as `ℚ`
  (the centroid computation is exact rational arithmetic on the inputs
  considered here);
* JS `Date` timestamps are modelled as `Nat` instants passed in
  explicitly;
* a JS tag object (`Record<string, string>`) is an association list,
  and JS truthiness of a string-valued property (`undefined`/`""` are
  falsy) is made explicit via `truthyGet` / `jsTruthy`;
* the MongoDB collection is a list of stored documents; `updateOne`
  with `$set`/`$setOnInsert` and `upsert : true` against the unique
  `osm_id` index is modelled by `upsertById` below.
-/

/-- A coordinate pair `(longitude, latitude)` as it appears in GeoJSON
`[lon, lat]` arrays. -/
abbrev Coord := ℚ × ℚ

/-- A JS `Record<string, string>` tag object, as an association list. -/
abbrev TagMap := List (String × String)

/-- Property lookup `tags[k]` on a tag object: `some v` when the key is
present, `none` when it is absent (`undefined`). -/
def tagGet (tags : TagMap) (k : String) : Option String :=
  (tags.find? (fun p => p.1 == k)).map (fun p => p.2)

/-- Lookup under JS truthiness: `tags[k]` used in a boolean or `||`
position is falsy both when the key is absent and when its value is the
empty string. -/
def truthyGet (tags : TagMap) (k : String) : Option String :=
  match tagGet tags k with
  | some v => if v = "" then none else some v
  | none => none

/-- JS truthiness of an optional string value (`undefined` and `""` are
falsy). -/
def jsTruthy (o : Option String) : Option String :=
  match o with
  | some s => if s = "" then none else some s
  | none => none

/-- JS `a || b` on string-valued operands that have already been
truthiness-filtered. -/
def jsOr (a b : Option String) : Option String :=
  match a with
  | some v => some v
  | none => b

/-- The `GeoJSONGeometry` union of `types.ts`: Point, Polygon,
LineString, MultiPolygon. -/
inductive Geometry where
  | point (coordinates : Coord)
  | lineString (coordinates : List Coord)
  | polygon (coordinates : List (List Coord))
  | multiPolygon (coordinates : List (List (List Coord)))
deriving DecidableEq, Repr

/-- `Address` of `types.ts` (`addr:*` tags; constant country). -/
structure Address where
  street : Option String
  city : Option String
  postcode : Option String
  country : String
deriving DecidableEq, Repr

/-- `Contact` of `types.ts`. -/
structure Contact where
  phone : Option String
  email : Option String
  website : Option String
deriving DecidableEq, Repr

/-- `ProcessedPlace` of `types.ts`, the normalized record produced by
`processForMongoDB`.  The stored GeoJSON point wrapper
`{ type : "Point", coordinates }` around `location` is modelled by the
bare coordinate pair; `fetched_at : Date` is a `Nat` instant. -/
structure ProcessedPlace where
  osm_id : String
  osm_type : String
  name : String
  name_si : Option String
  name_ta : Option String
  category : String
  subcategory : String
  geometry : Option Geometry
  location : Option Coord
  tags : TagMap
  address : Address
  contact : Contact
  opening_hours : Option String
  wheelchair : Option String
  description : Option String
  fetched_at : Nat
  source : String
deriving DecidableEq, Repr

/-- The fields of `feature.properties` that `processForMongoDB` reads:
`props.id`, `props.type`, `props.tags`, and — when `props.tags` is
absent — the string-valued entries of the properties object itself
(`flat`), since the source falls back to `props.tags || props`. -/
structure FeatureProps where
  id : Option String
  type : Option String
  tags : Option TagMap
  flat : TagMap
deriving DecidableEq, Repr

/-- `GeoJSONFeature` of `types.ts`: optional id, nullable geometry,
properties object (nullable at the use site: `feature.properties || {}`). -/
structure GeoFeature where
  id : Option String
  geometry : Option Geometry
  properties : Option FeatureProps
deriving DecidableEq, Repr

/-- `calculateCentroid` of `osmFetcher.ts` (lines 266-287): select the
vertex list — Polygon: outer ring `coordinates[0]`; LineString: all
vertices; MultiPolygon: first polygon's outer ring `coordinates[0][0]`;
anything else: the empty list — and return `null` when it is empty,
otherwise the arithmetic mean of its coordinates.

JS note: on a Polygon whose `coordinates` array is itself empty,
`coordinates[0]` is `undefined` and the source throws a `TypeError` at
`coords.length`; that malformed case is modelled by `[]` here and the
theorems about Polygon inputs carry a well-formedness hypothesis
(`wfFeature`) excluding it. -/
def calculateCentroid (geometry : Geometry) : Option Coord :=
  let coords : List Coord :=
    match geometry with
    | .polygon cs => cs.headD []
    | .lineString cs => cs
    | .multiPolygon cs => (cs.headD []).headD []
    | _ => []
  if coords.length = 0 then none
  else
    let sumLon := (coords.map Prod.fst).sum
    let sumLat := (coords.map Prod.snd).sum
    some (sumLon / (coords.length : ℚ), sumLat / (coords.length : ℚ))

/-- `extractOsmType` of `osmFetcher.ts`: `"unknown"` for a falsy id,
otherwise `id.split("/")[0] || "unknown"` (the split head is the run of
characters before the first `/`). -/
def extractOsmType (id : Option String) : String :=
  match jsTruthy id with
  | none => "unknown"
  | some s =>
    let head := String.mk (s.data.takeWhile (fun c => c ≠ '/'))
    if head = "" then "unknown" else head

/-- `determineCategory` of `osmFetcher.ts` (lines 305-312): sequential
truthiness checks on `tags.tourism`, `tags.amenity`, `tags.historic`,
`tags.natural`, `tags.leisure`, defaulting to `"other"`. -/
def determineCategory (tags : TagMap) : String :=
  if (truthyGet tags "tourism").isSome then "tourism"
  else if (truthyGet tags "amenity").isSome then "amenity"
  else if (truthyGet tags "historic").isSome then "historic"
  else if (truthyGet tags "natural").isSome then "natural"
  else if (truthyGet tags "leisure").isSome then "leisure"
  else "other"

/-- `determineSubcategory` of `osmFetcher.ts` (lines 319-328): the JS
`||` chain over the same five tag values, defaulting to `"unknown"`. -/
def determineSubcategory (tags : TagMap) : String :=
  (truthyGet tags "tourism").getD
    ((truthyGet tags "amenity").getD
      ((truthyGet tags "historic").getD
        ((truthyGet tags "natural").getD
          ((truthyGet tags "leisure").getD "unknown"))))

/-- `props.tags || props`: the tag object used by the normalizer. -/
def effectiveTags (props : FeatureProps) : TagMap :=
  match props.tags with
  | some t => t
  | none => props.flat

/-- The coordinate extraction at the top of `processForMongoDB`
(lines 199-212): Point coordinates pass through; Polygon and LineString
go through `calculateCentroid`; every other geometry type — including
MultiPolygon — leaves `coordinates` at `null`. -/
def resolveCoordinates (geometry : Option Geometry) : Option Coord :=
  match geometry with
  | none => none
  | some g =>
    match g with
    | .point c => some c
    | .polygon _ => calculateCentroid g
    | .lineString _ => calculateCentroid g
    | _ => none

/-- The body of the `map` in `processForMongoDB` (lines 196-251),
building one `ProcessedPlace` from one feature; `now` is the `Date`
captured for `fetched_at`. -/
def processFeature (now : Nat) (feature : GeoFeature) : ProcessedPlace :=
  let coordinates := resolveCoordinates feature.geometry
  let props : FeatureProps := feature.properties.getD ⟨none, none, none, []⟩
  let tags := effectiveTags props
  { osm_id := (jsTruthy feature.id).getD ((jsTruthy props.id).getD "")
    osm_type := (jsTruthy props.type).getD (extractOsmType feature.id)
    name := (truthyGet tags "name").getD ((truthyGet tags "name:en").getD "Unnamed")
    name_si := truthyGet tags "name:si"
    name_ta := truthyGet tags "name:ta"
    category := determineCategory tags
    subcategory := determineSubcategory tags
    geometry := feature.geometry
    location := coordinates
    tags := tags
    address :=
      { street := truthyGet tags "addr:street"
        city := truthyGet tags "addr:city"
        postcode := truthyGet tags "addr:postcode"
        country := "Sri Lanka" }
    contact :=
      { phone := jsOr (truthyGet tags "phone") (truthyGet tags "contact:phone")
        email := jsOr (truthyGet tags "email") (truthyGet tags "contact:email")
        website := jsOr (truthyGet tags "website") (truthyGet tags "contact:website") }
    opening_hours := truthyGet tags "opening_hours"
    wheelchair := truthyGet tags "wheelchair"
    description := truthyGet tags "description"
    fetched_at := now
    source := "OpenStreetMap" }

/-- `processForMongoDB` of `osmFetcher.ts` (lines 193-259): map each
feature to a `ProcessedPlace`, then filter out the ones whose
`location` is `null`. -/
def processForMongoDB (now : Nat) (features : List GeoFeature) : List ProcessedPlace :=
  (features.map (processFeature now)).filter (fun f => f.location.isSome)

/-- Well-formedness of a feature's geometry: a GeoJSON Polygon carries
at least one ring (on a ring-less Polygon the source throws rather than
returning a record; see `calculateCentroid`). -/
def wfFeature (f : GeoFeature) : Bool :=
  match f.geometry with
  | some (.polygon cs) => !cs.isEmpty
  | _ => true

/-- The `[timeout:180]` literal of the five single-dimension builders in
`queryBuilder.js`. -/
def singleQueryTimeout : Nat := 180

/-- The `[timeout:300]` literal of `buildComprehensiveQuery`. -/
def comprehensiveQueryTimeout : Nat := 300

/-- `BoundingBox` of `types.ts`; coordinates as exact rationals (the JS
numeric rendering inside the template literal is `toString` here). -/
structure BBox where
  south : ℚ
  west : ℚ
  north : ℚ
  east : ℚ
deriving DecidableEq, Repr

/-- `getBboxString` of `queryBuilder.js`: `"south,west,north,east"`. -/
def getBboxString (b : BBox) : String :=
  toString b.south ++ "," ++ toString b.west ++ "," ++ toString b.north ++ "," ++ toString b.east

/-- One `node["key"="tag"](bbox);` filter clause. -/
def nodeClause (key tag bboxStr : String) : String :=
  "node[\"" ++ key ++ "\"=\"" ++ tag ++ "\"](" ++ bboxStr ++ ");"

/-- One `way["key"="tag"](bbox);` filter clause. -/
def wayClause (key tag bboxStr : String) : String :=
  "way[\"" ++ key ++ "\"=\"" ++ tag ++ "\"](" ++ bboxStr ++ ");"

/-- The template shared verbatim by `buildTourismQuery`,
`buildAmenityQuery`, `buildHistoricQuery`, `buildNaturalQuery` and
`buildLeisureQuery` (the source repeats it once per method, changing
only the tag key): node filters and way filters for every listed value,
joined with `"\n  "`, inside the `[out:json][timeout:180]` wrapper. -/
def buildCategoryQuery (key : String) (b : BBox) (tags : List String) : String :=
  let bboxStr := getBboxString b
  let tagFilters := String.intercalate "\n  " (tags.map (fun tag => nodeClause key tag bboxStr))
  let wayFilters := String.intercalate "\n  " (tags.map (fun tag => wayClause key tag bboxStr))
  "\n[out:json][timeout:" ++ toString singleQueryTimeout ++ "];\n(\n  " ++
    tagFilters ++ "\n  " ++ wayFilters ++
    "\n);\nout body;\n>;\nout skel qt;\n"

/-- `buildTourismQuery` of `queryBuilder.js`. -/
def buildTourismQuery (b : BBox) (tags : List String) : String :=
  buildCategoryQuery "tourism" b tags

/-- `buildAmenityQuery` of `queryBuilder.js`. -/
def buildAmenityQuery (b : BBox) (tags : List String) : String :=
  buildCategoryQuery "amenity" b tags

/-- `buildHistoricQuery` of `queryBuilder.js`. -/
def buildHistoricQuery (b : BBox) (tags : List String) : String :=
  buildCategoryQuery "historic" b tags

/-- `buildNaturalQuery` of `queryBuilder.js`. -/
def buildNaturalQuery (b : BBox) (tags : List String) : String :=
  buildCategoryQuery "natural" b tags

/-- `buildLeisureQuery` of `queryBuilder.js`. -/
def buildLeisureQuery (b : BBox) (tags : List String) : String :=
  buildCategoryQuery "leisure" b tags

/-- `TagConfig` of `types.ts`: all five tag lists optional. -/
structure TagConfig where
  tourismTags : Option (List String)
  amenityTags : Option (List String)
  historicTags : Option (List String)
  naturalTags : Option (List String)
  leisureTags : Option (List String)
deriving DecidableEq, Repr

/-- One dimension's contribution to the `filters` array of
`buildComprehensiveQuery`: nothing when the list is absent
(`undefined`) or empty (the `tags && tags.length > 0` guard), otherwise
a node clause and a way clause pushed per tag value, in list order. -/
def dimFilters (key bboxStr : String) (tags : Option (List String)) : List String :=
  match tags with
  | none => []
  | some ts =>
    if 0 < ts.length then
      ts.flatMap (fun tag => [nodeClause key tag bboxStr, wayClause key tag bboxStr])
    else []

/-- The full `filters` array built by `buildComprehensiveQuery`
(lines 164-204), dimensions in source order. -/
def comprehensiveFilters (b : BBox) (cfg : TagConfig) : List String :=
  let bboxStr := getBboxString b
  dimFilters "tourism" bboxStr cfg.tourismTags ++
  dimFilters "amenity" bboxStr cfg.amenityTags ++
  dimFilters "historic" bboxStr cfg.historicTags ++
  dimFilters "natural" bboxStr cfg.naturalTags ++
  dimFilters "leisure" bboxStr cfg.leisureTags

/-- `buildComprehensiveQuery` of `queryBuilder.js` (lines 159-215):
`filters.join("\n  ")` inside the `[out:json][timeout:300]` wrapper. -/
def buildComprehensiveQuery (b : BBox) (cfg : TagConfig) : String :=
  "\n[out:json][timeout:" ++ toString comprehensiveQueryTimeout ++ "];\n(\n  " ++
    String.intercalate "\n  " (comprehensiveFilters b cfg) ++
    "\n);\nout body;\n>;\nout skel qt;\n"

/-- Total number of tag values listed across the five dimensions of a
`TagConfig` (an absent list counts as zero values). -/
def totalTagCount (cfg : TagConfig) : Nat :=
  (cfg.tourismTags.getD []).length + (cfg.amenityTags.getD []).length +
  (cfg.historicTags.getD []).length + (cfg.naturalTags.getD []).length +
  (cfg.leisureTags.getD []).length

/-- Scan a character list for the first occurrence of `pat` and return
what follows it (used to read the timeout figure back out of a built
query string). -/
def dropThrough (pat : List Char) : List Char → Option (List Char)
  | [] => none
  | c :: rest =>
    if pat.isPrefixOf (c :: rest) then some ((c :: rest).drop pat.length)
    else dropThrough pat rest

/-- Decimal value of a digit run. -/
def digitsToNat (cs : List Char) : Nat :=
  cs.foldl (fun acc c => 10 * acc + (c.toNat - 48)) 0

/-- The execution-time budget a query string embeds: the digit run
following its first `[timeout:` marker (0 when no marker exists). -/
def timeoutOf (q : String) : Nat :=
  match dropThrough "[timeout:".data q.data with
  | none => 0
  | some rest => digitsToNat (rest.takeWhile Char.isDigit)

/-- `StorageResult` of `types.ts`. -/
structure StorageResult where
  inserted : Nat
  updated : Nat
  errors : Nat
deriving DecidableEq, Repr

/-- A document in the MongoDB collection: the `ProcessedPlace` fields
written by `$set`, plus `created_at`, written once by `$setOnInsert`. -/
structure StoredDoc where
  place : ProcessedPlace
  created_at : Nat
deriving DecidableEq, Repr

/-- The MongoDB collection state. -/
abbrev MongoState := List StoredDoc

/-- `collection.updateOne({ osm_id }, { $set: feature, $setOnInsert:
{ created_at: now } }, { upsert: true })`, as issued by `storeFeatures`
(mongoStorage.ts lines 124-131), against the unique `osm_id` index.
Returns the new collection plus `(upsertedCount, modifiedCount)`:

* no document matches the filter → the feature is inserted with
  `created_at := now`; `upsertedCount = 1`;
* a document matches → `$set` overwrites its `ProcessedPlace` fields
  with the incoming ones, `created_at` is untouched (`$setOnInsert`
  applies only on insert), and MongoDB reports `modifiedCount = 1`
  exactly when the stored fields actually changed value. -/
def upsertById : MongoState → ProcessedPlace → Nat → MongoState × Nat × Nat
  | [], f, now => ([⟨f, now⟩], 1, 0)
  | d :: rest, f, now =>
    if d.place.osm_id = f.osm_id then
      (⟨f, d.created_at⟩ :: rest, 0, if d.place = f then 0 else 1)
    else
      let r := upsertById rest f now
      (d :: r.1, r.2)

/-- `storeFeatures` of `mongoStorage.ts` (lines 110-150): one upsert
per record inside `try/catch`; `upsertedCount > 0` increments
`inserted`, otherwise `modifiedCount > 0` increments `updated`; a
thrown per-record error increments `errors` and the loop continues.

The storage-constraint failure mode of the database driver (e.g. a
malformed identity rejected by the server) is abstracted as the
predicate `writeOk`: a record with `writeOk f = false` is the record
whose `updateOne` throws. `now` is the `Date` captured by
`$setOnInsert` for this batch. -/
def storeFeatures (writeOk : ProcessedPlace → Bool) (now : Nat) :
    MongoState → List ProcessedPlace → MongoState × StorageResult
  | db, [] => (db, ⟨0, 0, 0⟩)
  | db, f :: rest =>
    if writeOk f then
      let u := upsertById db f now
      let r := storeFeatures writeOk now u.1 rest
      if 0 < u.2.1 then
        (r.1, { r.2 with inserted := r.2.inserted + 1 })
      else if 0 < u.2.2 then
        (r.1, { r.2 with updated := r.2.updated + 1 })
      else r
    else
      let r := storeFeatures writeOk now db rest
      (r.1, { r.2 with errors := r.2.errors + 1 })

/-- Spec-side category resolution: the explicit ordered list of tag
keys `tourism > amenity > historic > natural > leisure`; the first key
present with a non-empty value determines category and subcategory,
else `("other", "unknown")`. Stated from the specification's words, to
be compared with `determineCategory`/`determineSubcategory`. -/
def specCategoryPair (tags : TagMap) : String × String :=
  match ["tourism", "amenity", "historic", "natural", "leisure"].find?
      (fun k => (truthyGet tags k).isSome) with
  | some k => (k, (truthyGet tags k).getD "")
  | none => ("other", "unknown")

/-- Spec-side arithmetic mean of a vertex list (componentwise sum over
count). -/
def meanCoords (coords : List Coord) : Coord :=
  ((coords.map Prod.fst).sum / (coords.length : ℚ),
   (coords.map Prod.snd).sum / (coords.length : ℚ))

/-- Sample bounding box used to instantiate universally quantified
theorems on concrete inputs. -/
def bbSample : BBox := ⟨6, 79, 10, 82⟩

/-- Sample tag configuration with a single tourism value. -/
def cfgOne : TagConfig := ⟨some ["museum"], none, none, none, none⟩

/-- Sample tag configuration with three tourism values. -/
def cfgThree : TagConfig := ⟨some ["museum", "hotel", "zoo"], none, none, none, none⟩

lemma flatMapClauses_length (key bs : String) (l : List String) :
    (l.flatMap (fun tag => [nodeClause key tag bs, wayClause key tag bs])).length
      = 2 * l.length := by
  induction l with
  | nil => rfl
  | cons a t ih =>
      simp only [List.flatMap_cons, List.length_append, List.length_cons, List.length_nil, ih]
      omega

lemma dimFilters_length (key bs : String) (ts : Option (List String)) :
    (dimFilters key bs ts).length = 2 * (ts.getD []).length := by
  cases ts with
  | none => rfl
  | some l =>
      cases l with
      | nil => rfl
      | cons a t =>
          simp only [dimFilters, Option.getD_some]
          rw [if_pos (by simp)]
          exact flatMapClauses_length key bs (a :: t)

lemma comprehensiveFilters_length (b : BBox) (cfg : TagConfig) :
    (comprehensiveFilters b cfg).length = 2 * totalTagCount cfg := by
  simp only [comprehensiveFilters, List.length_append, dimFilters_length, totalTagCount]
  ring

/-- C8: in `buildComprehensiveQuery`, each listed tag value contributes
exactly one node clause and one way clause, so the filter-clause count
is twice the total number of listed tag values; consing a value onto
any dimension adds exactly two clauses (hence strictly more, never
fewer), and an absent or empty tag list contributes no clauses (and is
not an error: the builder is total). -/
theorem comprehensiveQuery_clause_counts (b : BBox) (cfg : TagConfig) (v : String) :
    (comprehensiveFilters b cfg).length = 2 * totalTagCount cfg ∧
    (∀ key bs, dimFilters key bs none = [] ∧ dimFilters key bs (some []) = []) ∧
    (∀ key bs l, dimFilters key bs (some (v :: l)) =
      nodeClause key v bs :: wayClause key v bs :: dimFilters key bs (some l)) ∧
    (comprehensiveFilters b { cfg with tourismTags := some (v :: cfg.tourismTags.getD []) }).length
      = (comprehensiveFilters b cfg).length + 2 ∧
    (comprehensiveFilters b { cfg with amenityTags := some (v :: cfg.amenityTags.getD []) }).length
      = (comprehensiveFilters b cfg).length + 2 ∧
    (comprehensiveFilters b { cfg with historicTags := some (v :: cfg.historicTags.getD []) }).length
      = (comprehensiveFilters b cfg).length + 2 ∧
    (comprehensiveFilters b { cfg with naturalTags := some (v :: cfg.naturalTags.getD []) }).length
      = (comprehensiveFilters b cfg).length + 2 ∧
    (comprehensiveFilters b { cfg with leisureTags := some (v :: cfg.leisureTags.getD []) }).length
      = (comprehensiveFilters b cfg).length + 2 := by
  refine ⟨comprehensiveFilters_length b cfg, ?_, ?_, ?_, ?_, ?_, ?_, ?_⟩
  · intro key bs
    exact ⟨rfl, rfl⟩
  · intro key bs l
    cases l with
    | nil => rfl
    | cons a t =>
        simp only [dimFilters]
        rw [if_pos (by simp), if_pos (by simp)]
        simp [List.flatMap_cons]
  all_goals
    simp only [comprehensiveFilters_length, totalTagCount, Option.getD_some, List.length_cons]
    ring

/-- C2: for every tag map, `determineCategory`/`determineSubcategory`
agree with the spec's ordered-priority resolution `specCategoryPair`
(`tourism > amenity > historic > natural > leisure`, first key with a
non-empty value wins; none present gives `("other", "unknown")`); and
a feature tagged with both tourism and amenity resolves to
`"tourism"`, never `"amenity"`. -/
theorem determineCategory_matches_priority (tags : TagMap) :
    determineCategory tags = (specCategoryPair tags).1 ∧
    determineSubcategory tags = (specCategoryPair tags).2 ∧
    determineCategory [("tourism", "museum"), ("amenity", "cafe")] = "tourism" ∧
    determineSubcategory [("tourism", "museum"), ("amenity", "cafe")] = "museum" := by
  refine ⟨?_, ?_, by decide, by decide⟩ <;>
  · simp only [determineCategory, determineSubcategory, specCategoryPair]
    cases h1 : truthyGet tags "tourism" <;>
      cases h2 : truthyGet tags "amenity" <;>
        cases h3 : truthyGet tags "historic" <;>
          cases h4 : truthyGet tags "natural" <;>
            cases h5 : truthyGet tags "leisure" <;>
              simp [List.find?, h1, h2, h3, h4, h5]

/-- C5: `calculateCentroid` returns the arithmetic mean of the outer
(first) ring for a Polygon and of all vertices for a LineString, `none`
when the selected vertex list is empty; the square
`[(0,0),(2,0),(2,2),(0,2)]` yields `(1,1)`. -/
theorem calculateCentroid_mean :
    (∀ (ring : List Coord) (rest : List (List Coord)),
        calculateCentroid (.polygon (ring :: rest)) =
          if ring.isEmpty then none else some (meanCoords ring)) ∧
    (∀ cs : List Coord,
        calculateCentroid (.lineString cs) =
          if cs.isEmpty then none else some (meanCoords cs)) ∧
    calculateCentroid (.polygon [[(0, 0), (2, 0), (2, 2), (0, 2)]]) = some (1, 1) := by
  refine ⟨?_, ?_, by simp [calculateCentroid]; norm_num⟩
  · intro ring rest
    cases ring <;> simp [calculateCentroid, meanCoords]
  · intro cs
    cases cs <;> simp [calculateCentroid, meanCoords]

/-- C7: every query-builder method is a pure function of the bounding
box and the tag selectors — two invocations with equal bounding boxes
and equal tag lists produce identical query strings. -/
theorem queryBuilder_deterministic (b1 b2 : BBox) (t1 t2 : List String)
    (cfg1 cfg2 : TagConfig) (hb : b1 = b2) (ht : t1 = t2) (hc : cfg1 = cfg2) :
    getBboxString b1 = getBboxString b2 ∧
    buildTourismQuery b1 t1 = buildTourismQuery b2 t2 ∧
    buildAmenityQuery b1 t1 = buildAmenityQuery b2 t2 ∧
    buildHistoricQuery b1 t1 = buildHistoricQuery b2 t2 ∧
    buildNaturalQuery b1 t1 = buildNaturalQuery b2 t2 ∧
    buildLeisureQuery b1 t1 = buildLeisureQuery b2 t2 ∧
    buildComprehensiveQuery b1 cfg1 = buildComprehensiveQuery b2 cfg2 := by
  subst hb ht hc
  exact ⟨rfl, rfl, rfl, rfl, rfl, rfl, rfl⟩

/-- Witness for C7 at a concrete bounding box, tag list and tag
configuration. -/
theorem queryBuilder_deterministic_witness :
    getBboxString bbSample = getBboxString bbSample ∧
    buildTourismQuery bbSample ["museum"] = buildTourismQuery bbSample ["museum"] ∧
    buildAmenityQuery bbSample ["museum"] = buildAmenityQuery bbSample ["museum"] ∧
    buildHistoricQuery bbSample ["museum"] = buildHistoricQuery bbSample ["museum"] ∧
    buildNaturalQuery bbSample ["museum"] = buildNaturalQuery bbSample ["museum"] ∧
    buildLeisureQuery bbSample ["museum"] = buildLeisureQuery bbSample ["museum"] ∧
    buildComprehensiveQuery bbSample cfgOne = buildComprehensiveQuery bbSample cfgOne :=
  queryBuilder_deterministic bbSample bbSample ["museum"] ["museum"] cfgOne cfgOne rfl rfl rfl

/-- C9 counterexample: the composite builder embeds the same budget
(300) for a 2-clause query and a 6-clause query, and no
proportionality constant relates the embedded budget to the clause
count across those two queries — refuting "proportional to the number
of clauses". -/
theorem comprehensiveTimeout_not_proportional :
    timeoutOf (buildComprehensiveQuery bbSample cfgOne) = 300 ∧
    timeoutOf (buildComprehensiveQuery bbSample cfgThree) = 300 ∧
    (comprehensiveFilters bbSample cfgOne).length = 2 ∧
    (comprehensiveFilters bbSample cfgThree).length = 6 ∧
    ¬ ∃ k : ℚ,
      (timeoutOf (buildComprehensiveQuery bbSample cfgOne) : ℚ) =
          k * ((comprehensiveFilters bbSample cfgOne).length : ℚ) ∧
      (timeoutOf (buildComprehensiveQuery bbSample cfgThree) : ℚ) =
          k * ((comprehensiveFilters bbSample cfgThree).length : ℚ) := by
  have e1 : timeoutOf (buildComprehensiveQuery bbSample cfgOne) = 300 := by decide
  have e2 : timeoutOf (buildComprehensiveQuery bbSample cfgThree) = 300 := by decide
  have l1 : (comprehensiveFilters bbSample cfgOne).length = 2 := by decide
  have l2 : (comprehensiveFilters bbSample cfgThree).length = 6 := by decide
  refine ⟨e1, e2, l1, l2, ?_⟩
  rintro ⟨k, h1, h2⟩
  rw [e1, l1] at h1
  rw [e2, l2] at h2
  push_cast at h1 h2
  linarith

/-- C9 as amended: `buildComprehensiveQuery` embeds a fixed
execution-time budget of 300 seconds — longer than the fixed
180-second budget of the single-dimension builders — independent of
the number of clauses in the produced query. -/
theorem comprehensiveTimeout_fixed (b : BBox) (cfg : TagConfig) (tags : List String) :
    comprehensiveQueryTimeout = 300 ∧
    singleQueryTimeout = 180 ∧
    singleQueryTimeout < comprehensiveQueryTimeout ∧
    (∃ rest, buildComprehensiveQuery b cfg =
      "\n[out:json][timeout:" ++ toString comprehensiveQueryTimeout ++ "];\n(\n  " ++ rest) ∧
    (∃ rest, buildTourismQuery b tags =
      "\n[out:json][timeout:" ++ toString singleQueryTimeout ++ "];\n(\n  " ++ rest) := by
  refine ⟨rfl, rfl, by decide, ⟨_, rfl⟩, ⟨_, rfl⟩⟩

/-- The vertex list that location resolution draws on for a non-point
geometry (spec-side notion used to state the empty-vertex-list claims):
LineString — all vertices; Polygon — the outer (first) ring;
MultiPolygon — the first polygon's outer ring; a Point has no vertex
list (its single coordinate pair always resolves). -/
def geometryVertices : Geometry → Option (List Coord)
  | .point _ => none
  | .lineString cs => some cs
  | .polygon cs => some (cs.headD [])
  | .multiPolygon cs => some ((cs.headD []).headD [])

lemma processFeature_location (now : Nat) (f : GeoFeature) :
    (processFeature now f).location = resolveCoordinates f.geometry := rfl

lemma processForMongoDB_eq_filter_map (now : Nat) (fs : List GeoFeature) :
    processForMongoDB now fs =
      (fs.filter (fun f => (resolveCoordinates f.geometry).isSome)).map (processFeature now) := by
  unfold processForMongoDB
  rw [List.filter_map]
  rfl

/-- C4: a feature with null geometry, or one whose selected vertex list
is empty, resolves no location and its record is absent from
`processForMongoDB`'s output; the output is exactly the processed
records of the features with a resolvable location, so the output count
equals the count of such input features (features are dropped by the
final filter, with no error reported — the function is total). -/
theorem processForMongoDB_filters_unresolvable (now : Nat) (fs : List GeoFeature)
    (hwf : ∀ f ∈ fs, wfFeature f = true) :
    (processForMongoDB now fs).length
      = fs.countP (fun f => (resolveCoordinates f.geometry).isSome) ∧
    processForMongoDB now fs
      = (fs.filter (fun f => (resolveCoordinates f.geometry).isSome)).map (processFeature now) ∧
    (∀ f ∈ fs, f.geometry = none →
      resolveCoordinates f.geometry = none ∧ processFeature now f ∉ processForMongoDB now fs) ∧
    (∀ f ∈ fs, ∀ g, f.geometry = some g → geometryVertices g = some [] →
      resolveCoordinates f.geometry = none ∧ processFeature now f ∉ processForMongoDB now fs) := by
  have hmem : ∀ f : GeoFeature, resolveCoordinates f.geometry = none →
      processFeature now f ∉ processForMongoDB now fs := by
    intro f hres hin
    have hp := List.of_mem_filter hin
    rw [processFeature_location, hres] at hp
    simp at hp
  refine ⟨?_, processForMongoDB_eq_filter_map now fs, ?_, ?_⟩
  · rw [processForMongoDB_eq_filter_map now fs, List.length_map,
      List.countP_eq_length_filter]
  · intro f _ hg
    have hres : resolveCoordinates f.geometry = none := by rw [hg]; rfl
    exact ⟨hres, hmem f hres⟩
  · intro f hf g hg hv
    have hres : resolveCoordinates f.geometry = none := by
      rw [hg]
      cases g with
      | point c => simp [geometryVertices] at hv
      | lineString cs =>
          simp [geometryVertices] at hv
          subst hv
          rfl
      | polygon cs =>
          simp [geometryVertices] at hv
          simp [resolveCoordinates, calculateCentroid, hv]
      | multiPolygon cs => rfl
    exact ⟨hres, hmem f hres⟩

/-- A standalone point feature tagged `tourism=museum` at (80, 7). -/
def pointFeature : GeoFeature :=
  ⟨some "node/1", some (.point (80, 7)), some ⟨none, none, some [("tourism", "museum")], []⟩⟩

/-- A feature with null geometry. -/
def nullGeomFeature : GeoFeature :=
  ⟨some "node/2", none, some ⟨none, none, some [("amenity", "cafe")], []⟩⟩

/-- A feature whose LineString has an empty vertex list. -/
def emptyLineFeature : GeoFeature :=
  ⟨some "way/3", some (.lineString []), none⟩

/-- Sample input collection for the filtering witness. -/
def sampleFeatures : List GeoFeature := [pointFeature, nullGeomFeature, emptyLineFeature]

/-- Witness for C4 on a concrete collection: one resolvable point
feature, one null-geometry feature, one empty-vertex-list feature. -/
theorem processForMongoDB_filters_unresolvable_witness :
    (∀ f ∈ sampleFeatures, wfFeature f = true) ∧
    (processForMongoDB 3 sampleFeatures).length
      = sampleFeatures.countP (fun f => (resolveCoordinates f.geometry).isSome) :=
  ⟨by decide, (processForMongoDB_filters_unresolvable 3 sampleFeatures (by decide)).1⟩

/-- The outer ring of the example square. -/
def squareRing : List Coord := [(0, 0), (2, 0), (2, 2), (0, 2)]

/-- A feature carrying a MultiPolygon whose first polygon's outer ring
is the non-empty `squareRing`. -/
def mpFeature : GeoFeature :=
  ⟨some "relation/9", some (.multiPolygon [[squareRing]]),
    some ⟨none, none, some [("tourism", "attraction")], []⟩⟩

/-- C3 counterexample: `mpFeature` has MultiPolygon geometry with a
non-empty first outer ring, yet `processForMongoDB` resolves no
location for it and drops it from the output — it does not resolve the
ring's arithmetic mean (1, 1), even though `calculateCentroid`'s own
MultiPolygon branch would compute exactly that mean. -/
theorem multiPolygon_location_unresolved :
    squareRing ≠ [] ∧
    resolveCoordinates mpFeature.geometry = none ∧
    processForMongoDB 0 [mpFeature] = [] ∧
    calculateCentroid (.multiPolygon [[squareRing]]) = some (1, 1) := by
  refine ⟨by decide, rfl, by decide, ?_⟩
  simp [calculateCentroid, squareRing]
  norm_num

/-- C3 as amended: `processForMongoDB` treats MultiPolygon like any
unhandled geometry type — the location stays unresolved and the feature
is excluded from the output; only `calculateCentroid` itself, which the
normalizer never reaches for MultiPolygon, would return the arithmetic
mean of the first member polygon's outer ring (when that ring is
non-empty). -/
theorem multiPolygon_dropped (now : Nat) (fs : List GeoFeature) (f : GeoFeature)
    (cs : List (List (List Coord))) (ring : List Coord) (rest : List (List Coord))
    (hf : f ∈ fs) (hg : f.geometry = some (.multiPolygon cs)) :
    resolveCoordinates f.geometry = none ∧
    (processFeature now f).location = none ∧
    processFeature now f ∉ processForMongoDB now fs ∧
    calculateCentroid (.multiPolygon ((ring :: rest) :: cs)) =
      (if ring.isEmpty then none else some (meanCoords ring)) := by
  have hres : resolveCoordinates f.geometry = none := by rw [hg]; rfl
  refine ⟨hres, by rw [processFeature_location, hres], ?_, ?_⟩
  · intro hin
    have hp := List.of_mem_filter hin
    rw [processFeature_location, hres] at hp
    simp at hp
  · cases ring <;> simp [calculateCentroid, meanCoords]

/-- Witness for C3's amended theorem at the concrete `mpFeature`. -/
theorem multiPolygon_dropped_witness :
    resolveCoordinates mpFeature.geometry = none ∧
    (processFeature 0 mpFeature).location = none ∧
    processFeature 0 mpFeature ∉ processForMongoDB 0 [mpFeature] ∧
    calculateCentroid (.multiPolygon ((squareRing :: []) :: [[squareRing]])) =
      (if squareRing.isEmpty then none else some (meanCoords squareRing)) :=
  multiPolygon_dropped 0 [mpFeature] mpFeature [[squareRing]] squareRing []
    (by decide) rfl

/-- A concrete normalized record used to instantiate storage theorems. -/
def samplePlace : ProcessedPlace :=
  { osm_id := "node/1", osm_type := "node", name := "Temple of the Tooth",
    name_si := none, name_ta := none, category := "tourism", subcategory := "museum",
    geometry := none, location := none, tags := [("tourism", "museum")],
    address := ⟨none, none, none, "Sri Lanka"⟩, contact := ⟨none, none, none⟩,
    opening_hours := none, wheelchair := none, description := none,
    fetched_at := 0, source := "OpenStreetMap" }

/-- `samplePlace` with a different name (same source id). -/
def renamedPlace : ProcessedPlace := { samplePlace with name := "Sacred Temple" }

/-- `samplePlace` under a different source id. -/
def placeWithId (i : String) : ProcessedPlace := { samplePlace with osm_id := i }

/-- A record with a malformed (empty) identity, rejected by the
storage constraint `sampleOk`. -/
def badPlace : ProcessedPlace := { samplePlace with osm_id := "", name := "Malformed" }

/-- A concrete storage constraint: the write of a record with an empty
source id throws. -/
def sampleOk : ProcessedPlace → Bool := fun p => !(p.osm_id == "")

/-- A batch of five records of which exactly one (`badPlace`) violates
the storage constraint. -/
def sampleBatch : List ProcessedPlace :=
  [placeWithId "node/1", placeWithId "node/2", badPlace,
   placeWithId "node/4", placeWithId "node/5"]

/-- C1: upserting the same source id twice. The first call inserts
(`inserted = 1`) and fixes `created_at` at the first call's clock
`t1`; a second call with different field values reports `updated = 1`
(and no insert), leaves exactly one stored document whose `created_at`
is still `t1` and whose other fields are the second call's values; a
second call with identical field values increments neither counter. -/
theorem storeFeatures_upsert_same_id (f1 f2 : ProcessedPlace) (t1 t2 : Nat)
    (hid : f1.osm_id = f2.osm_id) (hne : f1 ≠ f2) :
    storeFeatures (fun _ => true) t1 [] [f1] = ([⟨f1, t1⟩], ⟨1, 0, 0⟩) ∧
    storeFeatures (fun _ => true) t2 [⟨f1, t1⟩] [f2] = ([⟨f2, t1⟩], ⟨0, 1, 0⟩) ∧
    storeFeatures (fun _ => true) t2 [⟨f1, t1⟩] [f1] = ([⟨f1, t1⟩], ⟨0, 0, 0⟩) := by
  refine ⟨by simp [storeFeatures, upsertById], ?_, ?_⟩
  · simp [storeFeatures, upsertById, hid, hne]
  · simp [storeFeatures, upsertById]

/-- Witness for C1 with two concrete records sharing `osm_id`
`"node/1"` and differing in the `name` field. -/
theorem storeFeatures_upsert_same_id_witness :
    storeFeatures (fun _ => true) 10 [] [samplePlace] = ([⟨samplePlace, 10⟩], ⟨1, 0, 0⟩) ∧
    storeFeatures (fun _ => true) 20 [⟨samplePlace, 10⟩] [renamedPlace]
      = ([⟨renamedPlace, 10⟩], ⟨0, 1, 0⟩) ∧
    storeFeatures (fun _ => true) 20 [⟨samplePlace, 10⟩] [samplePlace]
      = ([⟨samplePlace, 10⟩], ⟨0, 0, 0⟩) :=
  storeFeatures_upsert_same_id samplePlace renamedPlace 10 20 rfl (by decide)

lemma storeFeatures_split (writeOk : ProcessedPlace → Bool) (now : Nat) :
    ∀ (fs : List ProcessedPlace) (db : MongoState),
      storeFeatures writeOk now db fs =
        ((storeFeatures writeOk now db (fs.filter writeOk)).1,
         { (storeFeatures writeOk now db (fs.filter writeOk)).2 with
             errors := fs.countP (fun f => !(writeOk f)) }) := by
  intro fs
  induction fs with
  | nil => intro db; simp [storeFeatures]
  | cons f rest ih =>
      intro db
      by_cases h : writeOk f = true
      · rw [List.filter_cons, if_pos h]
        simp only [storeFeatures, h, if_true, List.countP_cons, h]
        rw [ih]
        simp [h]
        split
        · rfl
        · split <;> rfl
      · have hb : writeOk f = false := by
          cases hw : writeOk f
          · rfl
          · exact absurd hw h
        rw [List.filter_cons, if_neg (by simp [hb])]
        simp only [storeFeatures, hb, Bool.false_eq_true, if_false, List.countP_cons]
        rw [ih]
        simp [hb]

/-- C6: a failing upsert is caught and counted, not propagated — the
error count is exactly the number of records whose write fails, and
the final collection state and the inserted/updated counts are those
of processing the non-failing records alone (the batch is not
aborted); concretely, a batch of five records where exactly one
violates the storage constraint produces four successful writes
(inserted) and an error count of exactly one. -/
theorem storeFeatures_error_isolation (writeOk : ProcessedPlace → Bool) (now : Nat)
    (db : MongoState) (fs : List ProcessedPlace) :
    (storeFeatures writeOk now db fs).2.errors = fs.countP (fun f => !(writeOk f)) ∧
    (storeFeatures writeOk now db fs).1
      = (storeFeatures writeOk now db (fs.filter writeOk)).1 ∧
    (storeFeatures writeOk now db fs).2.inserted
      = (storeFeatures writeOk now db (fs.filter writeOk)).2.inserted ∧
    (storeFeatures writeOk now db fs).2.updated
      = (storeFeatures writeOk now db (fs.filter writeOk)).2.updated ∧
    (storeFeatures sampleOk 7 [] sampleBatch).2 = ⟨4, 0, 1⟩ := by
  rw [storeFeatures_split writeOk now fs db]
  exact ⟨rfl, rfl, rfl, rfl, by decide⟩

/-- C10 (implicit): a feature whose id is absent and whose properties
carry no id gets `osm_id = ""`; two such features therefore share one
source identity, and upserting their processed records in succession
leaves a single stored document holding the later record (the earlier
one is overwritten, keeping the first write's `created_at`). -/
theorem idless_features_collapse (now t1 t2 : Nat) (f1 f2 : GeoFeature)
    (h1 : f1.id = none)
    (h2 : (f1.properties.getD ⟨none, none, none, []⟩).id = none)
    (h3 : f2.id = none)
    (h4 : (f2.properties.getD ⟨none, none, none, []⟩).id = none) :
    (processFeature now f1).osm_id = "" ∧
    (processFeature now f2).osm_id = "" ∧
    (storeFeatures (fun _ => true) t2
        (storeFeatures (fun _ => true) t1 [] [processFeature now f1]).1
        [processFeature now f2]).1
      = [⟨processFeature now f2, t1⟩] := by
  have e1 : (processFeature now f1).osm_id = "" := by
    simp [processFeature, jsTruthy, h1, h2]
  have e2 : (processFeature now f2).osm_id = "" := by
    simp [processFeature, jsTruthy, h3, h4]
  refine ⟨e1, e2, ?_⟩
  simp [storeFeatures, upsertById, e1, e2]
  split <;> rfl

/-- A feature with no id anywhere, tagged `tourism=hotel`. -/
def idlessFeature1 : GeoFeature :=
  ⟨none, none, some ⟨none, none, some [("tourism", "hotel")], []⟩⟩

/-- Another feature with no id anywhere, tagged `amenity=cafe`. -/
def idlessFeature2 : GeoFeature :=
  ⟨none, none, some ⟨none, none, some [("amenity", "cafe")], []⟩⟩

/-- Witness for C10 with two concrete id-less features. -/
theorem idless_features_collapse_witness :
    (processFeature 5 idlessFeature1).osm_id = "" ∧
    (processFeature 5 idlessFeature2).osm_id = "" ∧
    (storeFeatures (fun _ => true) 20
        (storeFeatures (fun _ => true) 10 [] [processFeature 5 idlessFeature1]).1
        [processFeature 5 idlessFeature2]).1
      = [⟨processFeature 5 idlessFeature2, 10⟩] :=
  idless_features_collapse 5 10 20 idlessFeature1 idlessFeature2 rfl rfl rfl rfl
